import Mathlib

/-!
# Verification of `pyart.graph.radardisplay_airborne`

A shallow embedding of the `RadarDisplay_Airborne` class
(`src/pyart/graph/radardisplay_airborne.py`) and proofs about it.

Numbers are modelled as rationals (`ℚ`); numpy 1D arrays as `List ℚ`;
2D (ray x gate) arrays as `List (List ℚ)`.  Vectorized numpy operations
become `List.map`.  The external geometry routines
(`pyart.graph.common.radar_coords_to_cart` and
`pyart.graph.coord_transform.radar_coords_to_cart_track_relative`) and the
base class `RadarDisplay` are not part of this source tree; where a claim
needs them they are modelled from the specification, with the unit
conventions (kilometre input, metre output) explicit and the fixed
trigonometric pipelines abstracted behind an interface.
-/

/-- Abstract interface for the trigonometric kernels of the two external
coordinate routines.  `sinD`/`cosD` are degree-argument sine and cosine for
the belly-mounted polar model; `trX`/`trY`/`trZ` are the direction cosines of
the track-relative rotation-matrix pipeline as functions of the five
attitude angles (rotation, roll, drift, tilt, pitch), all in degrees.
Exact trigonometry is not rational, so it stays abstract; every theorem
below holds for an arbitrary `Trig`. -/
structure Trig where
  sinD : ℚ → ℚ
  cosD : ℚ → ℚ
  trX : ℚ → ℚ → ℚ → ℚ → ℚ → ℚ
  trY : ℚ → ℚ → ℚ → ℚ → ℚ → ℚ
  trZ : ℚ → ℚ → ℚ → ℚ → ℚ → ℚ

/-- Modelled from the spec: `radar_coords_to_cart` lives in
`pyart.graph.common`, which is missing from this source tree.  Per the spec
it is the "standard ground-radar polar-to-Cartesian conversion using azimuth
and elevation directly" of the belly-mounted model: the gate range comes in
kilometres, azimuth and elevation in degrees, and the Cartesian offsets go
out in metres.  The kilometre-to-metre factor 1000 is explicit; the
degree trigonometry is abstracted by `Trig`. -/
def radar_coords_to_cart (T : Trig) (rng az ele : ℚ) : ℚ × ℚ × ℚ :=
  (1000 * rng * T.cosD ele * T.sinD az,
   1000 * rng * T.cosD ele * T.cosD az,
   1000 * rng * T.sinD ele)

/-- Modelled from the spec: `radar_coords_to_cart_track_relative` lives in
`pyart.graph.coord_transform`, which is missing from this source tree.  Per
the spec the track-relative model "composes rotation, roll, drift, tilt, and
pitch via rotation-matrix algebra … a fixed trigonometric pipeline,
documented as an external geometry routine": the gate range comes in
kilometres and is scaled to metres, and each Cartesian component is that
metre range times a fixed direction-cosine function of the five attitude
angles, abstracted here as `trX`/`trY`/`trZ`. -/
def radar_coords_to_cart_track_relative
    (T : Trig) (rng rot roll drift tilt pitch : ℚ) : ℚ × ℚ × ℚ :=
  (1000 * rng * T.trX rot roll drift tilt pitch,
   1000 * rng * T.trY rot roll drift tilt pitch,
   1000 * rng * T.trZ rot roll drift tilt pitch)

/-- The derived Cartesian grids: `self.x`, `self.y`, `self.z`, each a
ray x gate 2D array in metres. -/
structure Grids where
  x : List (List ℚ)
  y : List (List ℚ)
  z : List (List ℚ)
deriving DecidableEq

/-- Zip the five per-ray attitude arrays, mirroring the five parallel
`np.meshgrid` calls of the track-relative branch: row `i` of each meshgrid
holds ray `i`'s angle repeated across gates. -/
def zip5 : List ℚ → List ℚ → List ℚ → List ℚ → List ℚ →
    List (ℚ × ℚ × ℚ × ℚ × ℚ)
  | a :: as, b :: bs, c :: cs, d :: ds, e :: es =>
      (a, b, c, d, e) :: zip5 as bs cs ds es
  | _, _, _, _, _ => []

/-- The belly-mounted branch before the shift (lines 112-115):
`rg, azg = np.meshgrid(self.ranges, self.azimuths)`,
`rg, eleg = np.meshgrid(self.ranges, self.elevations)`,
`self.x, self.y, self.z = radar_coords_to_cart(rg / 1000.0, azg, eleg)`.
Row `i`, column `j` applies the routine to `ranges[j] / 1000`,
`azimuths[i]`, `elevations[i]`. -/
def bellyGrids (T : Trig) (ranges azimuths elevations : List ℚ) : Grids where
  x := (azimuths.zip elevations).map fun p =>
    ranges.map fun r => (radar_coords_to_cart T (r / 1000) p.1 p.2).1
  y := (azimuths.zip elevations).map fun p =>
    ranges.map fun r => (radar_coords_to_cart T (r / 1000) p.1 p.2).2.1
  z := (azimuths.zip elevations).map fun p =>
    ranges.map fun r => (radar_coords_to_cart T (r / 1000) p.1 p.2).2.2

/-- The track-relative branch before the shift (lines 119-125): five
meshgrids over rotation, roll, drift, tilt, pitch, then
`radar_coords_to_cart_track_relative(rg / 1000.0, rotg, rollg, driftg,
tiltg, pitchg)`. -/
def trackGrids (T : Trig) (ranges rotation roll drift tilt pitch : List ℚ) :
    Grids where
  x := (zip5 rotation roll drift tilt pitch).map fun q =>
    ranges.map fun r =>
      (radar_coords_to_cart_track_relative T (r / 1000)
        q.1 q.2.1 q.2.2.1 q.2.2.2.1 q.2.2.2.2).1
  y := (zip5 rotation roll drift tilt pitch).map fun q =>
    ranges.map fun r =>
      (radar_coords_to_cart_track_relative T (r / 1000)
        q.1 q.2.1 q.2.2.1 q.2.2.2.1 q.2.2.2.2).2.1
  z := (zip5 rotation roll drift tilt pitch).map fun q =>
    ranges.map fun r =>
      (radar_coords_to_cart_track_relative T (r / 1000)
        q.1 q.2.1 q.2.2.1 q.2.2.2.1 q.2.2.2.2).2.2

/-- The grid part of `RadarDisplay_Airborne._calculateLocalization`
(lines 111-127): branch on `radar.metadata['platform_type']`, convert with
the matching external routine, then `self.x = self.x + self.shift[0]` and
`self.y = self.y + self.shift[1]` elementwise; `self.z` gets no shift. -/
def calcGrids (T : Trig) (platform_type : String)
    (ranges azimuths elevations rotation roll drift tilt pitch : List ℚ)
    (shift : ℚ × ℚ) : Grids :=
  if platform_type = "aircraft_belly" then
    let g := bellyGrids T ranges azimuths elevations
    { x := g.x.map (List.map fun v => v + shift.1)
      y := g.y.map (List.map fun v => v + shift.2)
      z := g.z }
  else
    let g := trackGrids T ranges rotation roll drift tilt pitch
    { x := g.x.map (List.map fun v => v + shift.1)
      y := g.y.map (List.map fun v => v + shift.2)
      z := g.z }

/-- The geolocation part of `_calculateLocalization` (lines 129-134):
`middle_lat = int(radar.latitude['data'].shape[0] / 2)` (and likewise for
longitude), then `self.loc = (lat[middle_lat], lon[middle_lon])`.  Python
raises `IndexError` on an empty array, modelled by `none`. -/
def radarLoc (latitude longitude : List ℚ) : Option (ℚ × ℚ) :=
  match latitude.get? (latitude.length / 2),
        longitude.get? (longitude.length / 2) with
  | some la, some lo => some (la, lo)
  | _, _ => none

/-- The whole of `_calculateLocalization`: the Cartesian grids for the
sweep plus the radar's (latitude, longitude) location. -/
def calculateLocalization (T : Trig) (platform_type : String)
    (ranges azimuths elevations rotation roll drift tilt pitch : List ℚ)
    (shift : ℚ × ℚ) (latitude longitude : List ℚ) :
    Grids × Option (ℚ × ℚ) :=
  (calcGrids T platform_type ranges azimuths elevations rotation roll drift
    tilt pitch shift,
   radarLoc latitude longitude)

/-- The coordinate-transformer contract in the spec's own words, for
comparison with `calcGrids`: "given gate ranges (meters), and per-ray
attitude angles (degrees), produce Cartesian x, y, z offsets (meters)",
by the belly-mounted or track-relative closed-form model, with the constant
horizontal shift applied after the transform.  Here the range is consumed
directly in metres: each component is the metre range times the model's
direction cosine. -/
def specTransformMeters (T : Trig) (platform_type : String)
    (ranges azimuths elevations rotation roll drift tilt pitch : List ℚ)
    (shift : ℚ × ℚ) : Grids :=
  if platform_type = "aircraft_belly" then
    { x := (azimuths.zip elevations).map fun p =>
        ranges.map fun r => r * T.cosD p.2 * T.sinD p.1 + shift.1
      y := (azimuths.zip elevations).map fun p =>
        ranges.map fun r => r * T.cosD p.2 * T.cosD p.1 + shift.2
      z := (azimuths.zip elevations).map fun p =>
        ranges.map fun r => r * T.sinD p.2 }
  else
    { x := (zip5 rotation roll drift tilt pitch).map fun q =>
        ranges.map fun r =>
          r * T.trX q.1 q.2.1 q.2.2.1 q.2.2.2.1 q.2.2.2.2 + shift.1
      y := (zip5 rotation roll drift tilt pitch).map fun q =>
        ranges.map fun r =>
          r * T.trY q.1 q.2.1 q.2.2.1 q.2.2.2.1 q.2.2.2.2 + shift.2
      z := (zip5 rotation roll drift tilt pitch).map fun q =>
        ranges.map fun r =>
          r * T.trZ q.1 q.2.1 q.2.2.1 q.2.2.2.1 q.2.2.2.2 }

/-- C1: the source transformer, which hands the external routines the
ranges divided by 1000 (kilometres) and receives metres back, coincides
with the spec's metres-in/metres-out contract: the two unit conversions
cancel exactly, so gate ranges in metres yield x, y, z offsets in metres. -/
theorem calcGrids_eq_specTransformMeters (T : Trig) (platform_type : String)
    (ranges azimuths elevations rotation roll drift tilt pitch : List ℚ)
    (shift : ℚ × ℚ) :
    calcGrids T platform_type ranges azimuths elevations rotation roll drift
      tilt pitch shift =
    specTransformMeters T platform_type ranges azimuths elevations rotation
      roll drift tilt pitch shift := by
  unfold calcGrids specTransformMeters bellyGrids trackGrids
  by_cases hp : platform_type = "aircraft_belly" <;>
    simp only [hp, if_true, if_false, reduceIte] <;>
    (rw [Grids.mk.injEq]; refine ⟨?_, ?_, ?_⟩) <;>
    (try simp only [List.map_map]) <;>
    refine List.map_congr_left fun a _ => ?_ <;>
    (try simp only [Function.comp, List.map_map]) <;>
    refine List.map_congr_left fun r _ => ?_ <;>
    simp only [Function.comp, radar_coords_to_cart,
      radar_coords_to_cart_track_relative] <;>
    ring

/-- C2: adding a shift (dx, dy) translates every x entry by dx and every y
entry by dy relative to the unshifted transform, and leaves z untouched;
the case split covers both the belly-mounted and the track-relative branch. -/
theorem calcGrids_shift_translates (T : Trig) (platform_type : String)
    (ranges azimuths elevations rotation roll drift tilt pitch : List ℚ)
    (dx dy : ℚ) :
    (calcGrids T platform_type ranges azimuths elevations rotation roll drift
        tilt pitch (dx, dy)).x =
      (calcGrids T platform_type ranges azimuths elevations rotation roll
        drift tilt pitch (0, 0)).x.map (List.map fun v => v + dx) ∧
    (calcGrids T platform_type ranges azimuths elevations rotation roll drift
        tilt pitch (dx, dy)).y =
      (calcGrids T platform_type ranges azimuths elevations rotation roll
        drift tilt pitch (0, 0)).y.map (List.map fun v => v + dy) ∧
    (calcGrids T platform_type ranges azimuths elevations rotation roll drift
        tilt pitch (dx, dy)).z =
      (calcGrids T platform_type ranges azimuths elevations rotation roll
        drift tilt pitch (0, 0)).z := by
  unfold calcGrids
  by_cases hp : platform_type = "aircraft_belly" <;>
    simp only [hp, if_true, if_false, reduceIte, and_true] <;>
    refine ⟨?_, ?_⟩ <;>
    simp only [List.map_map] <;>
    refine List.map_congr_left fun a _ => ?_ <;>
    simp only [Function.comp, List.map_map] <;>
    refine List.map_congr_left fun r _ => ?_ <;>
    simp only [Function.comp] <;>
    ring

/-- C6: the transformer branches on the platform type: exactly for
`'aircraft_belly'` the polar routine `radar_coords_to_cart` is used on the
range/azimuth/elevation grids (via `bellyGrids`), and for every other
platform type the track-relative routine on the
range/rotation/roll/drift/tilt/pitch grids (via `trackGrids`), with the
shift added to x and y afterwards in both cases. -/
theorem calcGrids_platform_dispatch (T : Trig) (platform_type : String)
    (ranges azimuths elevations rotation roll drift tilt pitch : List ℚ)
    (shift : ℚ × ℚ) :
    (platform_type = "aircraft_belly" →
      calcGrids T platform_type ranges azimuths elevations rotation roll
          drift tilt pitch shift =
        { x := (bellyGrids T ranges azimuths elevations).x.map
            (List.map fun v => v + shift.1)
          y := (bellyGrids T ranges azimuths elevations).y.map
            (List.map fun v => v + shift.2)
          z := (bellyGrids T ranges azimuths elevations).z }) ∧
    (platform_type ≠ "aircraft_belly" →
      calcGrids T platform_type ranges azimuths elevations rotation roll
          drift tilt pitch shift =
        { x := (trackGrids T ranges rotation roll drift tilt pitch).x.map
            (List.map fun v => v + shift.1)
          y := (trackGrids T ranges rotation roll drift tilt pitch).y.map
            (List.map fun v => v + shift.2)
          z := (trackGrids T ranges rotation roll drift tilt pitch).z }) := by
  constructor <;> intro hp <;> simp only [calcGrids, hp, if_true, if_false,
    reduceIte]

/-- A sample trigonometric kernel used only to instantiate witnesses; the
theorems hold for every `Trig`. -/
def egTrig : Trig where
  sinD := fun q => q / 2
  cosD := fun q => 1 - q / 3
  trX := fun a b c d e => a + b + c + d + e
  trY := fun a b c d e => a - b + c - d + e
  trZ := fun a b c d e => a * b + c * d + e

theorem calcGrids_platform_dispatch_witness :
    calcGrids egTrig "aircraft_belly" [1500] [30] [10] [5] [6] [7] [8] [9]
        (2, 3) =
      { x := (bellyGrids egTrig [1500] [30] [10]).x.map
          (List.map fun v => v + (2 : ℚ))
        y := (bellyGrids egTrig [1500] [30] [10]).y.map
          (List.map fun v => v + (3 : ℚ))
        z := (bellyGrids egTrig [1500] [30] [10]).z } ∧
    calcGrids egTrig "aircraft_tail" [1500] [30] [10] [5] [6] [7] [8] [9]
        (2, 3) =
      { x := (trackGrids egTrig [1500] [5] [6] [7] [8] [9]).x.map
          (List.map fun v => v + (2 : ℚ))
        y := (trackGrids egTrig [1500] [5] [6] [7] [8] [9]).y.map
          (List.map fun v => v + (3 : ℚ))
        z := (trackGrids egTrig [1500] [5] [6] [7] [8] [9]).z } :=
  ⟨(calcGrids_platform_dispatch egTrig "aircraft_belly" [1500] [30] [10]
      [5] [6] [7] [8] [9] (2, 3)).1 rfl,
   (calcGrids_platform_dispatch egTrig "aircraft_tail" [1500] [30] [10]
      [5] [6] [7] [8] [9] (2, 3)).2 (by decide)⟩

/-- C10: on non-empty latitude and longitude arrays the stored location is
the pair of middle elements, indices `⌊n/2⌋` and `⌊m/2⌋`. -/
theorem radarLoc_middle (latitude longitude : List ℚ)
    (hla : latitude ≠ []) (hlo : longitude ≠ []) :
    radarLoc latitude longitude =
      some (latitude.getD (latitude.length / 2) 0,
            longitude.getD (longitude.length / 2) 0) := by
  have h1 : latitude.length / 2 < latitude.length :=
    Nat.div_lt_self (List.length_pos.mpr hla) one_lt_two
  have h2 : longitude.length / 2 < longitude.length :=
    Nat.div_lt_self (List.length_pos.mpr hlo) one_lt_two
  rw [radarLoc, List.get?_eq_get h1, List.get?_eq_get h2]
  rw [List.getD_eq_getElem _ _ h1, List.getD_eq_getElem _ _ h2]
  rfl

theorem radarLoc_middle_witness :
    radarLoc [10, 20, 30] [1, 2, 3, 4] = some (20, 3) := by
  have h := radarLoc_middle [10, 20, 30] [1, 2, 3, 4] (by decide) (by decide)
  rw [h]
  rfl

/-- The radar data object as consumed by this module: each pyart field is a
dict whose `'data'` entry is the array; the model keeps just those arrays,
plus `metadata['platform_type']`. -/
structure Radar where
  fixed_angle : List ℚ
  rotation : List ℚ
  roll : List ℚ
  drift : List ℚ
  tilt : List ℚ
  heading : List ℚ
  pitch : List ℚ
  altitude : List ℚ
  latitude : List ℚ
  longitude : List ℚ
  platform_type : String
deriving DecidableEq

/-- The attitude attributes set by `RadarDisplay_Airborne.__init__`
(lines 95-105).  Note the source stores `radar.fixed_angle['data'][0]` — the
FIRST ELEMENT only, a scalar (`none` when the array is empty, where Python
raises `IndexError`) — while the seven remaining attributes keep the whole
per-ray arrays. -/
structure AttitudeAttrs where
  fixed_angle : Option ℚ
  rotation : List ℚ
  roll : List ℚ
  drift : List ℚ
  tilt : List ℚ
  heading : List ℚ
  pitch : List ℚ
  altitude : List ℚ
deriving DecidableEq

/-- `RadarDisplay_Airborne.__init__`, attribute-extraction part
(lines 97-104), in source order. -/
def initAttitude (radar : Radar) : AttitudeAttrs where
  fixed_angle := radar.fixed_angle.get? 0
  rotation := radar.rotation
  roll := radar.roll
  drift := radar.drift
  tilt := radar.tilt
  heading := radar.heading
  pitch := radar.pitch
  altitude := radar.altitude

/-- A concrete radar record used to exhibit what construction stores. -/
def egRadar : Radar where
  fixed_angle := [7, 8]
  rotation := [1, 2]
  roll := [3, 4]
  drift := [5, 6]
  tilt := [9, 10]
  heading := [11, 12]
  pitch := [13, 14]
  altitude := [15, 16]
  latitude := [40, 41, 42]
  longitude := [-105, -104, -103]
  platform_type := "aircraft_tail"

/-- C8: at construction the seven attitude arrays rotation, roll, drift,
tilt, heading, pitch, altitude are stored whole, but the fixed angle is NOT
stored as an array: line 97 stores `radar.fixed_angle['data'][0]`, the first
element alone, although the class docstring documents the attribute as
`fixed_angle : array`.  On `egRadar`, whose fixed-angle data is `[7, 8]`,
the stored value is the scalar `7`. -/
theorem initAttitude_fixed_angle_first_element_only :
    (initAttitude egRadar).rotation = egRadar.rotation ∧
    (initAttitude egRadar).roll = egRadar.roll ∧
    (initAttitude egRadar).drift = egRadar.drift ∧
    (initAttitude egRadar).tilt = egRadar.tilt ∧
    (initAttitude egRadar).heading = egRadar.heading ∧
    (initAttitude egRadar).pitch = egRadar.pitch ∧
    (initAttitude egRadar).altitude = egRadar.altitude ∧
    egRadar.fixed_angle = [7, 8] ∧
    (initAttitude egRadar).fixed_angle = some 7 := by
  refine ⟨rfl, rfl, rfl, rfl, rfl, rfl, rfl, rfl, rfl⟩

/-- One numpy floating-point cell: a finite rational or one of the
non-finite IEEE values (NaN, +inf, -inf). -/
inductive FVal where
  | fin : ℚ → FVal
  | nan : FVal
  | posInf : FVal
  | negInf : FVal
deriving DecidableEq

/-- `np.isfinite` on one cell. -/
def FVal.isFinite : FVal → Bool
  | .fin _ => true
  | _ => false

/-- IEEE comparison `v < q` against a finite bound: NaN compares false. -/
def FVal.ltQ : FVal → ℚ → Bool
  | .fin v, q => decide (v < q)
  | .nan, _ => false
  | .posInf, _ => false
  | .negInf, _ => true

/-- IEEE comparison `v > q` against a finite bound: NaN compares false. -/
def FVal.gtQ : FVal → ℚ → Bool
  | .fin v, q => decide (q < v)
  | .nan, _ => false
  | .posInf, _ => true
  | .negInf, _ => false

/-- One cell of a numpy masked array: the stored value and its mask bit
(`true` means masked out). -/
structure MVal where
  val : FVal
  mask : Bool
deriving DecidableEq

/-- `np.ma.masked_invalid`: additionally mask every cell whose value is not
finite (NaN or infinite), keeping existing masks. -/
def masked_invalid (d : List (List MVal)) : List (List MVal) :=
  d.map (List.map fun c => { c with mask := c.mask || !c.val.isFinite })

/-- `np.ma.masked_outside(d, v1, v2)`: numpy orders the two bounds, then
additionally masks every cell whose value compares below the lower or above
the upper bound, keeping existing masks. -/
def masked_outside (d : List (List MVal)) (v1 v2 : ℚ) : List (List MVal) :=
  d.map (List.map fun c =>
    { c with mask := c.mask || c.val.ltQ (min v1 v2) || c.val.gtQ (max v1 v2) })

/-- The value returned by `ax.pcolormesh(x, z, data, vmin=vmin, vmax=vmax,
cmap=cmap)`: a record of exactly what was handed to the mesh renderer. -/
structure PlotHandle where
  xg : List (List ℚ)
  zg : List (List ℚ)
  data : List (List MVal)
  vmin : ℚ
  vmax : ℚ
  cmap : String
deriving DecidableEq

/-- A colorbar as appended by `plot_colorbar`: the mappable it was built
from and the label/orientation/field options it was given. -/
structure Colorbar where
  mappable : PlotHandle
  label : Option String
  orient : Option String
  field : String
deriving DecidableEq

/-- The mutable state of a `RadarDisplay_Airborne` object: the attitude
attributes captured by `__init__`, the geolocation `loc`, `origin` and
`scan_type`, and the three grow-only lists `plots`, `plot_vars`, `cbs`. -/
structure DisplayState where
  fixed_angle : Option ℚ
  rotation : List ℚ
  roll : List ℚ
  drift : List ℚ
  tilt : List ℚ
  heading : List ℚ
  pitch : List ℚ
  altitude : List ℚ
  loc : Option (ℚ × ℚ)
  origin : String
  scan_type : String
  plots : List PlotHandle
  plot_vars : List String
  cbs : List Colorbar
deriving DecidableEq

/-- The keyword options of `plot_sweep_grid` (and of the `**kwargs` that
`plot` forwards verbatim), with the defaults of the source signature
(lines 172-177). -/
structure Kwargs where
  mask_tuple : Option (String × ℚ) := none
  vmin : Option ℚ := none
  vmax : Option ℚ := none
  cmap : String := "jet"
  mask_outside : Bool := true
  title : Option String := none
  title_flag : Bool := true
  axislabels : Option String × Option String := (none, none)
  axislabels_flag : Bool := true
  colorbar_flag : Bool := true
  colorbar_label : Option String := none
  colorbar_orient : Option String := none
  edges : Bool := true
  filter_transitions : Bool := true
deriving DecidableEq

/-- Modelled from the spec: the base-class helpers `_get_data`, `_get_x_z`,
`_get_x_y` and the per-field default colour limits used by
`parse_vmin_vmax` (`pyart.graph.radardisplay` / `pyart.graph.common`, not in
this source tree) are opaque data sources reading the radar fields; the
claims hold for every such family of helpers, so they are parameters. -/
structure ExtHelpers where
  get_data : String → Nat → Option (String × ℚ) → Bool → List (List MVal)
  get_x_z : String → Nat → Bool → Bool → List (List ℚ) × List (List ℚ)
  get_x_y : String → Nat → Bool → Bool → List (List ℚ) × List (List ℚ)
  default_vmin : String → ℚ
  default_vmax : String → ℚ

/-- Modelled from the spec: `parse_vmin_vmax` (`pyart.graph.common`, not in
this source tree) resolves a `None` luminance bound to the field's default
value and passes an explicit bound through. -/
def parse_vmin_vmax (E : ExtHelpers) (field : String) (vmin vmax : Option ℚ) :
    ℚ × ℚ :=
  (vmin.getD (E.default_vmin field), vmax.getD (E.default_vmax field))

/-- Modelled from the spec: `plot_colorbar` is inherited from the base class
(not in this source tree); per the spec it "creates a colorbar and appends
it too" to the display's `cbs` list, built from the given mappable and
label/orientation/field options. -/
def plot_colorbar (s : DisplayState) (mappable : PlotHandle)
    (label orient : Option String) (field : String) : DisplayState :=
  { s with cbs := s.cbs ++ [⟨mappable, label, orient, field⟩] }

/-- `RadarDisplay_Airborne.plot_sweep_grid` (lines 172-275) as a state
transformer: parse the colour limits, fetch the sweep's data and x/z
coordinates, mask invalid and out-of-range values when `mask_outside` is
set, hand the result to `pcolormesh`, append the returned handle and the
field name, and optionally create and append a colorbar.  The title and
axis-label calls (lines 261-265) draw on the matplotlib axis only and touch
no display-object state.  The Python method returns `None`; its effect is
the new state. -/
def plot_sweep_grid (E : ExtHelpers) (s : DisplayState) (field : String)
    (sweep : Nat) (k : Kwargs) : DisplayState :=
  let vmm := parse_vmin_vmax E field k.vmin k.vmax
  let data0 := E.get_data field sweep k.mask_tuple k.filter_transitions
  let xz := E.get_x_z field sweep k.edges k.filter_transitions
  let data := if k.mask_outside then
      masked_outside (masked_invalid data0) vmm.1 vmm.2
    else data0
  let pm : PlotHandle := ⟨xz.1, xz.2, data, vmm.1, vmm.2, k.cmap⟩
  let s1 := { s with plots := s.plots ++ [pm],
                     plot_vars := s.plot_vars ++ [field] }
  if k.colorbar_flag then
    plot_colorbar s1 pm k.colorbar_label k.colorbar_orient field
  else s1

/-- Modelled from the spec: `plot_ppi` is inherited from the base class (not
in this source tree); per the spec it is the PPI instance of the grid
renderer of section 4.3 — mask, draw a pseudocolor mesh over the PPI x/y
coordinates, append the plot handle and field name, optionally create and
append a colorbar. -/
def plot_ppi (E : ExtHelpers) (s : DisplayState) (field : String) (sweep : Nat)
    (k : Kwargs) : DisplayState :=
  let vmm := parse_vmin_vmax E field k.vmin k.vmax
  let data0 := E.get_data field sweep k.mask_tuple k.filter_transitions
  let xy := E.get_x_y field sweep k.edges k.filter_transitions
  let data := if k.mask_outside then
      masked_outside (masked_invalid data0) vmm.1 vmm.2
    else data0
  let pm : PlotHandle := ⟨xy.1, xy.2, data, vmm.1, vmm.2, k.cmap⟩
  let s1 := { s with plots := s.plots ++ [pm],
                     plot_vars := s.plot_vars ++ [field] }
  if k.colorbar_flag then
    plot_colorbar s1 pm k.colorbar_label k.colorbar_orient field
  else s1

/-- `RadarDisplay_Airborne.plot` (lines 140-170): route on `scan_type` to
`plot_ppi` (ppi) or `plot_sweep_grid` (rhi, vpt), forwarding field, sweep
and the keyword options unchanged; any other scan type raises
`ValueError('unknown scan_type % s' % (self.scan_type))`. -/
def plot (E : ExtHelpers) (s : DisplayState) (field : String) (sweep : Nat)
    (k : Kwargs) : Except String DisplayState :=
  if s.scan_type = "ppi" then
    Except.ok (plot_ppi E s field sweep k)
  else if s.scan_type = "rhi" then
    Except.ok (plot_sweep_grid E s field sweep k)
  else if s.scan_type = "vpt" then
    Except.ok (plot_sweep_grid E s field sweep k)
  else
    Except.error ("unknown scan_type " ++ s.scan_type)

/-- `label_xaxis_x` (lines 277-280): writes an x-axis label built from
`self.origin` onto the matplotlib axis; the display state passes through
untouched. -/
def label_xaxis_x (s : DisplayState) : String × DisplayState :=
  ("Horizontal distance from " ++ s.origin ++ " (km)", s)

/-- `label_yaxis_y` (lines 282-285). -/
def label_yaxis_y (s : DisplayState) : String × DisplayState :=
  ("Horizontal distance from " ++ s.origin ++ " (km)", s)

/-- `label_yaxis_z` (lines 287-290). -/
def label_yaxis_z (s : DisplayState) : String × DisplayState :=
  ("Altitude (km)", s)

/-- The attitude attributes and geolocation of `s'` agree with those of
`s`. -/
def attitudeEq (s s' : DisplayState) : Prop :=
  s'.fixed_angle = s.fixed_angle ∧ s'.rotation = s.rotation ∧
  s'.roll = s.roll ∧ s'.drift = s.drift ∧ s'.tilt = s.tilt ∧
  s'.heading = s.heading ∧ s'.pitch = s.pitch ∧
  s'.altitude = s.altitude ∧ s'.loc = s.loc

instance (s s' : DisplayState) : Decidable (attitudeEq s s') := by
  unfold attitudeEq
  infer_instance

theorem attitudeEq_refl (s : DisplayState) : attitudeEq s s :=
  ⟨rfl, rfl, rfl, rfl, rfl, rfl, rfl, rfl, rfl⟩

/-- Sample external helpers used only to instantiate witnesses. -/
def egExtH : ExtHelpers where
  get_data := fun _ _ _ _ =>
    [[⟨.fin 2, false⟩, ⟨.nan, false⟩], [⟨.fin 50, false⟩, ⟨.posInf, false⟩]]
  get_x_z := fun _ _ _ _ => ([[0, 1], [0, 1]], [[5, 5], [6, 6]])
  get_x_y := fun _ _ _ _ => ([[0, 1], [0, 1]], [[2, 2], [3, 3]])
  default_vmin := fun _ => 0
  default_vmax := fun _ => 10

/-- A sample display state (RHI scan) used only to instantiate witnesses. -/
def egState : DisplayState where
  fixed_angle := some 7
  rotation := [1, 2]
  roll := [3, 4]
  drift := [5, 6]
  tilt := [9, 10]
  heading := [11, 12]
  pitch := [13, 14]
  altitude := [15, 16]
  loc := some (41, -104)
  origin := "Radar"
  scan_type := "rhi"
  plots := []
  plot_vars := []
  cbs := []

def egStatePpi : DisplayState := { egState with scan_type := "ppi" }

def egStateVpt : DisplayState := { egState with scan_type := "vpt" }

def egStateBad : DisplayState := { egState with scan_type := "sector" }

/-- The source's default keyword options. -/
def egK : Kwargs := {}

/-- C3: `plot` routes on the display's scan type — 'ppi' to the PPI routine
and both 'rhi' and 'vpt' to the sweep-grid routine — handing each the same
field, sweep and keyword options it received. -/
theorem plot_routes_by_scan_type (E : ExtHelpers) (s : DisplayState)
    (field : String) (sweep : Nat) (k : Kwargs) :
    (s.scan_type = "ppi" →
      plot E s field sweep k = Except.ok (plot_ppi E s field sweep k)) ∧
    (s.scan_type = "rhi" →
      plot E s field sweep k =
        Except.ok (plot_sweep_grid E s field sweep k)) ∧
    (s.scan_type = "vpt" →
      plot E s field sweep k =
        Except.ok (plot_sweep_grid E s field sweep k)) := by
  refine ⟨fun h => ?_, fun h => ?_, fun h => ?_⟩ <;> simp [plot, h]

theorem plot_routes_by_scan_type_witness :
    plot egExtH egStatePpi "reflectivity" 0 egK =
      Except.ok (plot_ppi egExtH egStatePpi "reflectivity" 0 egK) ∧
    plot egExtH egState "reflectivity" 0 egK =
      Except.ok (plot_sweep_grid egExtH egState "reflectivity" 0 egK) ∧
    plot egExtH egStateVpt "reflectivity" 0 egK =
      Except.ok (plot_sweep_grid egExtH egStateVpt "reflectivity" 0 egK) :=
  ⟨(plot_routes_by_scan_type egExtH egStatePpi "reflectivity" 0 egK).1 rfl,
   (plot_routes_by_scan_type egExtH egState "reflectivity" 0 egK).2.1 rfl,
   (plot_routes_by_scan_type egExtH egStateVpt "reflectivity" 0 egK).2.2 rfl⟩

/-- C4: any scan type outside {ppi, rhi, vpt} makes `plot` raise
`ValueError('unknown scan_type % s' % scan_type)` — the message names the
offending scan type — and no rendering routine runs: no ok state exists. -/
theorem plot_unknown_scan_type_error (E : ExtHelpers) (s : DisplayState)
    (field : String) (sweep : Nat) (k : Kwargs)
    (h1 : s.scan_type ≠ "ppi") (h2 : s.scan_type ≠ "rhi")
    (h3 : s.scan_type ≠ "vpt") :
    plot E s field sweep k =
      Except.error ("unknown scan_type " ++ s.scan_type) ∧
    ∀ s', plot E s field sweep k ≠ Except.ok s' := by
  have hp : plot E s field sweep k =
      Except.error ("unknown scan_type " ++ s.scan_type) := by
    simp [plot, h1, h2, h3]
  refine ⟨hp, fun s' hok => ?_⟩
  rw [hp] at hok
  exact Except.noConfusion hok

theorem plot_unknown_scan_type_error_witness :
    plot egExtH egStateBad "reflectivity" 0 egK =
      Except.error ("unknown scan_type " ++ egStateBad.scan_type) ∧
    ∀ s', plot egExtH egStateBad "reflectivity" 0 egK ≠ Except.ok s' :=
  plot_unknown_scan_type_error egExtH egStateBad "reflectivity" 0 egK
    (by decide) (by decide) (by decide)

/-- Every cell of the masked pipeline that is invalid or compares outside
ordered limits [v1, v2] ends up masked. -/
theorem masked_pipeline_masks (d0 : List (List MVal)) (v1 v2 : ℚ)
    (hvm : v1 ≤ v2) :
    ∀ row ∈ masked_outside (masked_invalid d0) v1 v2, ∀ c ∈ row,
      (c.val.isFinite = false ∨ c.val.ltQ v1 = true ∨
       c.val.gtQ v2 = true) → c.mask = true := by
  intro row hrow c hcell hdisj
  simp only [masked_outside, masked_invalid, List.map_map,
    List.mem_map] at hrow
  obtain ⟨row0, _, rfl⟩ := hrow
  simp only [Function.comp, List.map_map, List.mem_map] at hcell
  obtain ⟨c0, _, rfl⟩ := hcell
  simp only [min_eq_left hvm, max_eq_right hvm] at hdisj ⊢
  rcases hdisj with h | h | h <;> simp [h]

/-- The plot handle that one `plot_sweep_grid` call appends, spelled out. -/
theorem plot_sweep_grid_plots_eq (E : ExtHelpers) (s : DisplayState)
    (field : String) (sweep : Nat) (k : Kwargs) :
    (plot_sweep_grid E s field sweep k).plots = s.plots ++
      [⟨(E.get_x_z field sweep k.edges k.filter_transitions).1,
        (E.get_x_z field sweep k.edges k.filter_transitions).2,
        (if k.mask_outside then
            masked_outside
              (masked_invalid
                (E.get_data field sweep k.mask_tuple k.filter_transitions))
              (parse_vmin_vmax E field k.vmin k.vmax).1
              (parse_vmin_vmax E field k.vmin k.vmax).2
          else E.get_data field sweep k.mask_tuple k.filter_transitions),
        (parse_vmin_vmax E field k.vmin k.vmax).1,
        (parse_vmin_vmax E field k.vmin k.vmax).2, k.cmap⟩] := by
  by_cases hc : k.colorbar_flag <;>
    simp [plot_sweep_grid, plot_colorbar, hc]

/-- C5: the plot handle appended by `plot_sweep_grid` carries, when
`mask_outside` is set (and the luminance limits are ordered), data in which
every invalid (NaN/infinite) cell and every cell below vmin or above vmax is
masked; when `mask_outside` is unset the fetched data goes to the mesh
renderer unmodified. -/
theorem plot_sweep_grid_masking (E : ExtHelpers) (s : DisplayState)
    (field : String) (sweep : Nat) (k : Kwargs)
    (hvm : (parse_vmin_vmax E field k.vmin k.vmax).1 ≤
           (parse_vmin_vmax E field k.vmin k.vmax).2) :
    ∃ pm : PlotHandle,
      (plot_sweep_grid E s field sweep k).plots = s.plots ++ [pm] ∧
      pm.vmin = (parse_vmin_vmax E field k.vmin k.vmax).1 ∧
      pm.vmax = (parse_vmin_vmax E field k.vmin k.vmax).2 ∧
      (k.mask_outside = true →
        ∀ row ∈ pm.data, ∀ c ∈ row,
          (c.val.isFinite = false ∨ c.val.ltQ pm.vmin = true ∨
           c.val.gtQ pm.vmax = true) → c.mask = true) ∧
      (k.mask_outside = false →
        pm.data =
          E.get_data field sweep k.mask_tuple k.filter_transitions) := by
  refine ⟨_, plot_sweep_grid_plots_eq E s field sweep k, rfl, rfl,
    fun hmo => ?_, fun hmo => ?_⟩
  · simp only [hmo, if_true, reduceIte]
    exact masked_pipeline_masks _ _ _ hvm
  · simp only [hmo, Bool.false_eq_true, if_false, reduceIte]

theorem plot_sweep_grid_masking_witness :
    ∃ pm : PlotHandle,
      (plot_sweep_grid egExtH egState "reflectivity" 0 egK).plots =
        egState.plots ++ [pm] ∧
      pm.vmin = (parse_vmin_vmax egExtH "reflectivity" egK.vmin egK.vmax).1 ∧
      pm.vmax = (parse_vmin_vmax egExtH "reflectivity" egK.vmin egK.vmax).2 ∧
      (egK.mask_outside = true →
        ∀ row ∈ pm.data, ∀ c ∈ row,
          (c.val.isFinite = false ∨ c.val.ltQ pm.vmin = true ∨
           c.val.gtQ pm.vmax = true) → c.mask = true) ∧
      (egK.mask_outside = false →
        pm.data =
          egExtH.get_data "reflectivity" 0 egK.mask_tuple
            egK.filter_transitions) :=
  plot_sweep_grid_masking egExtH egState "reflectivity" 0 egK (by decide)

/-- C7: one `plot_sweep_grid` call appends exactly one plot handle and
exactly the plotted field name, keeps the two lists' lengths equal, appends
a colorbar exactly when `colorbar_flag` is set, and removes nothing: the
old lists survive as prefixes. -/
theorem plot_sweep_grid_appends (E : ExtHelpers) (s : DisplayState)
    (field : String) (sweep : Nat) (k : Kwargs)
    (hlen : s.plots.length = s.plot_vars.length) :
    (∃ pm, (plot_sweep_grid E s field sweep k).plots = s.plots ++ [pm]) ∧
    (plot_sweep_grid E s field sweep k).plot_vars = s.plot_vars ++ [field] ∧
    (plot_sweep_grid E s field sweep k).plots.length =
      (plot_sweep_grid E s field sweep k).plot_vars.length ∧
    s.plots <+: (plot_sweep_grid E s field sweep k).plots ∧
    s.plot_vars <+: (plot_sweep_grid E s field sweep k).plot_vars ∧
    (k.colorbar_flag = true →
      ∃ cb, (plot_sweep_grid E s field sweep k).cbs = s.cbs ++ [cb]) ∧
    (k.colorbar_flag = false →
      (plot_sweep_grid E s field sweep k).cbs = s.cbs) ∧
    s.cbs <+: (plot_sweep_grid E s field sweep k).cbs := by
  by_cases hc : k.colorbar_flag <;>
    simp [plot_sweep_grid, plot_colorbar, hc, hlen, List.prefix_append]

theorem plot_sweep_grid_appends_witness :
    (∃ pm, (plot_sweep_grid egExtH egState "reflectivity" 0 egK).plots =
      egState.plots ++ [pm]) ∧
    (plot_sweep_grid egExtH egState "reflectivity" 0 egK).plot_vars =
      egState.plot_vars ++ ["reflectivity"] ∧
    (plot_sweep_grid egExtH egState "reflectivity" 0 egK).plots.length =
      (plot_sweep_grid egExtH egState "reflectivity" 0 egK).plot_vars.length ∧
    egState.plots <+:
      (plot_sweep_grid egExtH egState "reflectivity" 0 egK).plots ∧
    egState.plot_vars <+:
      (plot_sweep_grid egExtH egState "reflectivity" 0 egK).plot_vars ∧
    (egK.colorbar_flag = true →
      ∃ cb, (plot_sweep_grid egExtH egState "reflectivity" 0 egK).cbs =
        egState.cbs ++ [cb]) ∧
    (egK.colorbar_flag = false →
      (plot_sweep_grid egExtH egState "reflectivity" 0 egK).cbs =
        egState.cbs) ∧
    egState.cbs <+: (plot_sweep_grid egExtH egState "reflectivity" 0 egK).cbs :=
  plot_sweep_grid_appends egExtH egState "reflectivity" 0 egK rfl

/-- C9: the attitude attributes and the geolocation captured at
construction survive every later operation unchanged: `plot_sweep_grid`,
every successful `plot`, and the three axis-label helpers leave them
identical. -/
theorem display_attitude_frame (E : ExtHelpers) (s : DisplayState)
    (field : String) (sweep : Nat) (k : Kwargs) :
    attitudeEq s (plot_sweep_grid E s field sweep k) ∧
    (∀ s', plot E s field sweep k = Except.ok s' → attitudeEq s s') ∧
    attitudeEq s (label_xaxis_x s).2 ∧
    attitudeEq s (label_yaxis_y s).2 ∧
    attitudeEq s (label_yaxis_z s).2 := by
  have hsg : attitudeEq s (plot_sweep_grid E s field sweep k) := by
    unfold plot_sweep_grid plot_colorbar attitudeEq
    by_cases hc : k.colorbar_flag <;> simp [hc]
  have hppi : attitudeEq s (plot_ppi E s field sweep k) := by
    unfold plot_ppi plot_colorbar attitudeEq
    by_cases hc : k.colorbar_flag <;> simp [hc]
  refine ⟨hsg, fun s' hok => ?_, attitudeEq_refl s, attitudeEq_refl s,
    attitudeEq_refl s⟩
  unfold plot at hok
  by_cases h1 : s.scan_type = "ppi"
  · rw [if_pos h1] at hok
    injection hok with hs
    exact hs ▸ hppi
  rw [if_neg h1] at hok
  by_cases h2 : s.scan_type = "rhi"
  · rw [if_pos h2] at hok
    injection hok with hs
    exact hs ▸ hsg
  rw [if_neg h2] at hok
  by_cases h3 : s.scan_type = "vpt"
  · rw [if_pos h3] at hok
    injection hok with hs
    exact hs ▸ hsg
  rw [if_neg h3] at hok
  exact Except.noConfusion hok

theorem display_attitude_frame_witness :
    attitudeEq egState (plot_sweep_grid egExtH egState "reflectivity" 0 egK) ∧
    attitudeEq egStatePpi (plot_ppi egExtH egStatePpi "reflectivity" 0 egK) :=
  ⟨(display_attitude_frame egExtH egState "reflectivity" 0 egK).1,
   (display_attitude_frame egExtH egStatePpi "reflectivity" 0 egK).2.1
     (plot_ppi egExtH egStatePpi "reflectivity" 0 egK) rfl⟩
